import Mathlib

/-!
Shallow embedding of `src/HWs/HW3/HW3/src/RoniMain.cpp`: a single-button
press classifier driving an LED (feedback flash on short presses, periodic
Timer1 blink on medium presses, full reset on long presses).

Globals of the C++ file become fields of `SysState`; `buttonISR`, `startTimer`,
`stopTimer` and the four sequential blocks of `loop` become state-transforming
functions.  `unsigned long` timestamp arithmetic (`millis()` differences) is
modelled as integer subtraction reduced mod 2^32 (`wsub`); the 16-bit OCR1A
register store is reduced mod 2^16.  Serial prints and `delay(100)` have no
modelled state and are omitted.
-/

namespace RoniMain

/-- Press classification thresholds (ms), from the source constants. -/
def SHORT_PRESS_TIME : Nat := 1500

/-- Long-press threshold (ms), from the source constants. -/
def LONG_PRESS_TIME : Nat := 4000

/-- Debounce window inside the ISR (ms), from the source constants. -/
def DEBOUNCE_TIME : Nat := 50

/-- Modulus of C++ `unsigned long` on the AVR toolchain used here (32 bits). -/
def UL_MOD : Nat := 2 ^ 32

/-- Modulus of the 16-bit OCR1A compare register. -/
def OCR1A_MOD : Nat := 2 ^ 16

/-- C++ `unsigned long` subtraction `a - b`, i.e. the difference mod 2^32. -/
def wsub (a b : Nat) : Nat := (((a : Int) - (b : Int)) % (UL_MOD : Int)).toNat

/-- The program state: every mutable global of `RoniMain.cpp`, plus the
LED pin level and the Timer1 configuration written by `startTimer` /
`stopTimer` (armed flag, the `counts` argument, and the OCR1A register). -/
structure SysState where
  PressCounter : Nat
  pressTime : Nat
  lastISRTime : Nat
  actionShort : Bool
  actionStart : Bool
  actionStop : Bool
  Blink : Bool
  lastFlashStart : Nat
  feedbackLedOn : Bool
  ledPin : Bool
  timerArmed : Bool
  timerCounts : Nat
  timerOCR1A : Nat
  deriving DecidableEq, Repr

/-- Boot state: all C++ globals start at 0 / false, LED low, timer off. -/
def initState : SysState :=
  { PressCounter := 0, pressTime := 0, lastISRTime := 0,
    actionShort := false, actionStart := false, actionStop := false,
    Blink := false, lastFlashStart := 0, feedbackLedOn := false,
    ledPin := false, timerArmed := false, timerCounts := 0, timerOCR1A := 0 }

/-- The three press classes distinguished by the release branch of
`buttonISR` (lines 137-151). -/
inductive PressClass where
  | short
  | medium
  | long
  deriving DecidableEq, Repr

/-- The duration bucketing performed by the `if duration < SHORT_PRESS_TIME
... else if duration < LONG_PRESS_TIME ... else ...` chain of `buttonISR`. -/
def classifyPress (D : Nat) : PressClass :=
  if D < SHORT_PRESS_TIME then PressClass.short
  else if D < LONG_PRESS_TIME then PressClass.medium
  else PressClass.long

/-- `buttonISR` (lines 124-153).  `now` is the `millis()` reading, `pinHigh`
the `digitalRead(buttonPin) == HIGH` result.  Debounce-rejected edges return
the state unchanged; accepted edges update `lastISRTime`, then either record
the press start (rising) or classify the elapsed duration and raise the
matching event flag (falling).  Short presses are counted only when not
already blinking. -/
def buttonISR (s : SysState) (now : Nat) (pinHigh : Bool) : SysState :=
  if wsub now s.lastISRTime < DEBOUNCE_TIME then s
  else
    let s1 := { s with lastISRTime := now }
    if pinHigh then
      { s1 with pressTime := now }
    else
      let duration := wsub now s1.pressTime
      if duration < SHORT_PRESS_TIME then
        if s1.Blink = false then
          { s1 with PressCounter := s1.PressCounter + 1, actionShort := true }
        else s1
      else if duration < LONG_PRESS_TIME then
        { s1 with actionStart := true }
      else
        { s1 with actionStop := true }

/-- Timer1 compare-match ISR (lines 157-159): toggles the LED pin. -/
def timerISR (s : SysState) : SysState := { s with ledPin := !s.ledPin }

/-- `startTimer(counts)` (lines 164-178): clamp `counts == 0` to 1, program
OCR1A = 7812*counts - 1 (a 16-bit register), enable the compare interrupt. -/
def startTimer (s : SysState) (counts : Nat) : SysState :=
  let c := if counts = 0 then 1 else counts
  { s with timerArmed := true, timerCounts := c,
           timerOCR1A := (7812 * c - 1) % OCR1A_MOD }

/-- `stopTimer` (lines 181-188): disable Timer1, LED low, reset the counter
and the blink flag. -/
def stopTimer (s : SysState) : SysState :=
  { s with timerArmed := false, ledPin := false, PressCounter := 0,
           Blink := false }

/-- First block of `loop` (lines 201-209): consume `actionStop`, then
`stopTimer` (the serial prints and `delay(100)` carry no modelled state). -/
def handleStop (s : SysState) : SysState :=
  if s.actionStop then stopTimer { s with actionStop := false } else s

/-- Second block of `loop` (lines 212-220): consume `actionShort`, LED high,
mark the feedback flash active and record its start time. -/
def handleShort (s : SysState) (now : Nat) : SysState :=
  if s.actionShort then
    { s with actionShort := false, ledPin := true, feedbackLedOn := true,
             lastFlashStart := now }
  else s

/-- Third block of `loop` (lines 223-226): end the feedback flash once
200 ms have elapsed since its start. -/
def flashEndCheck (s : SysState) (now : Nat) : SysState :=
  if s.feedbackLedOn = true ∧ 200 ≤ wsub now s.lastFlashStart then
    { s with ledPin := false, feedbackLedOn := false }
  else s

/-- Fourth block of `loop` (lines 229-240): consume `actionStart`; when not
already blinking and the counter is positive, force the LED low, arm Timer1
with `PressCounter`, and set `Blink`. -/
def handleStart (s : SysState) : SysState :=
  if s.actionStart then
    let s1 := { s with actionStart := false }
    if s1.Blink = false ∧ 0 < s1.PressCounter then
      { startTimer { s1 with ledPin := false } s1.PressCounter with
          Blink := true }
    else s1
  else s

/-- One iteration of `loop` (lines 199-241), the four blocks in source order,
with a single `millis()` reading `now` for the iteration. -/
def loopStep (s : SysState) (now : Nat) : SysState :=
  handleStart (flashEndCheck (handleShort (handleStop s) now) now)

/-- Nominal toggle half-period in ms when Timer1 is armed with `counts`:
the source comment (line 163) states OCR1A = (7812*counts)-1 at a 15625 Hz
tick gives ~0.5 s × counts per toggle. -/
def togglePeriodMs (counts : Nat) : Nat := 500 * counts

/-- Nominal full blink period in ms: two toggles (off-on-off). -/
def blinkNominalPeriodMs (counts : Nat) : Nat := 2 * togglePeriodMs counts

/-- The fixed 3-way bucket mapping stated by the specification (section 4.3):
PressCounter 1 → 1000 ms, 2 → 2000 ms, anything else (≥3) → 3000 ms.  Written
from the spec text, for comparison with the period the code actually arms. -/
def specBucketPeriodMs (n : Nat) : Nat :=
  if n = 1 then 1000 else if n = 2 then 2000 else 3000

/-- Concrete state for the C1 run: five short presses counted, a medium
press just classified. -/
def sC1 : SysState := { initState with PressCounter := 5, actionStart := true }

/-- Concrete state for short-press witnesses: press started at t = 1000,
that edge accepted (lastISRTime = 1000), not blinking. -/
def sShortW : SysState := { initState with pressTime := 1000, lastISRTime := 1000 }

/-- Concrete state for short-press-while-blinking witnesses. -/
def sShortBlinkW : SysState :=
  { initState with pressTime := 1000, lastISRTime := 1000, Blink := true,
                   PressCounter := 2 }

/-- Concrete active state with a pending stop event. -/
def sStopW : SysState :=
  { initState with actionStop := true, PressCounter := 3, Blink := true,
                   timerArmed := true, ledPin := true }

/-- Concrete idle state with a pending stop event. -/
def sStopIdleW : SysState := { initState with actionStop := true }

/-- Concrete state with a pending medium-press event and counter 2. -/
def sStartW : SysState := { initState with actionStart := true, PressCounter := 2 }

/-- Concrete state with a pending medium-press event while already blinking. -/
def sStartBlinkW : SysState :=
  { initState with actionStart := true, PressCounter := 2, Blink := true,
                   timerArmed := true, timerCounts := 2 }

/-- Concrete state with a pending medium-press event and counter 0. -/
def sStartZeroW : SysState := { initState with actionStart := true }

/-- Concrete state with a pending short-press event. -/
def sFlashW : SysState := { initState with actionShort := true }

/-- Concrete state with an active feedback flash that started at t = 100. -/
def sFlashOnW : SysState :=
  { initState with feedbackLedOn := true, ledPin := true, lastFlashStart := 100 }

/-- Concrete state with all three event flags pending. -/
def sFlagsW : SysState :=
  { initState with actionShort := true, actionStart := true, actionStop := true,
                   PressCounter := 1 }

/-- Concrete state whose last accepted edge was at t = 100. -/
def sDebW : SysState := { initState with lastISRTime := 100 }

/-! ### Helper lemmas -/

/-- When the real elapsed time `a - b` does not wrap, the modular
`unsigned long` subtraction agrees with it. -/
theorem wsub_eq_of_le {a b : Nat} (hba : b ≤ a) (h : a - b < UL_MOD) :
    wsub a b = a - b := by
  unfold wsub
  have h1 : (a : Int) - (b : Int) = ((a - b : Nat) : Int) := by omega
  rw [h1, Int.emod_eq_of_lt (Int.ofNat_nonneg _) (by exact_mod_cast h)]
  simp

/-- Zero elapsed time subtracts to zero. -/
theorem wsub_self (a : Nat) : wsub a a = 0 := by
  simp [wsub]

theorem classifyPress_eq_short {D : Nat} :
    classifyPress D = PressClass.short ↔ D < 1500 := by
  unfold classifyPress SHORT_PRESS_TIME LONG_PRESS_TIME
  split_ifs <;> simp_all

theorem classifyPress_eq_medium {D : Nat} :
    classifyPress D = PressClass.medium ↔ 1500 ≤ D ∧ D < 4000 := by
  unfold classifyPress SHORT_PRESS_TIME LONG_PRESS_TIME
  split_ifs <;> simp_all

theorem classifyPress_eq_long {D : Nat} :
    classifyPress D = PressClass.long ↔ 4000 ≤ D := by
  unfold classifyPress SHORT_PRESS_TIME LONG_PRESS_TIME
  split_ifs with h1 h2
  · simp_all
    omega
  · simp_all
  · simp_all

/-- On an accepted release edge, `buttonISR` acts according to the class of
the elapsed duration. -/
theorem buttonISR_release (s : SysState) (now : Nat)
    (hacc : ¬ wsub now s.lastISRTime < DEBOUNCE_TIME) :
    buttonISR s now false =
      match classifyPress (wsub now s.pressTime) with
      | PressClass.short =>
          if s.Blink = false then
            { s with lastISRTime := now, PressCounter := s.PressCounter + 1,
                     actionShort := true }
          else { s with lastISRTime := now }
      | PressClass.medium => { s with lastISRTime := now, actionStart := true }
      | PressClass.long => { s with lastISRTime := now, actionStop := true } := by
  unfold buttonISR classifyPress
  rw [if_neg hacc]
  simp only [Bool.false_eq_true, if_false]
  split_ifs <;> rfl

/-! ### Claim theorems -/

/-- Claim C2: the press classifier maps every duration D < 1500 to short,
1500 ≤ D < 4000 to medium and D ≥ 4000 to long; the boundary durations
1499, 1500, 3999, 4000 and 4001 are classified short, medium, medium, long
and long; and on an accepted release edge `buttonISR` raises exactly the
event flag matching the class of the elapsed duration. -/
theorem press_classifier_thresholds :
    (∀ D : Nat, D < 1500 → classifyPress D = PressClass.short) ∧
    (∀ D : Nat, 1500 ≤ D → D < 4000 → classifyPress D = PressClass.medium) ∧
    (∀ D : Nat, 4000 ≤ D → classifyPress D = PressClass.long) ∧
    (classifyPress 1499 = PressClass.short ∧
     classifyPress 1500 = PressClass.medium ∧
     classifyPress 3999 = PressClass.medium ∧
     classifyPress 4000 = PressClass.long ∧
     classifyPress 4001 = PressClass.long) ∧
    (∀ (s : SysState) (now : Nat),
      ¬ wsub now s.lastISRTime < DEBOUNCE_TIME →
      (classifyPress (wsub now s.pressTime) = PressClass.medium →
        buttonISR s now false =
          { s with lastISRTime := now, actionStart := true }) ∧
      (classifyPress (wsub now s.pressTime) = PressClass.long →
        buttonISR s now false =
          { s with lastISRTime := now, actionStop := true })) := by
  refine ⟨fun D h => classifyPress_eq_short.mpr h,
          fun D h1 h2 => classifyPress_eq_medium.mpr ⟨h1, h2⟩,
          fun D h => classifyPress_eq_long.mpr h,
          by decide, ?_⟩
  intro s now hacc
  constructor
  · intro hm
    rw [buttonISR_release s now hacc, hm]
  · intro hl
    rw [buttonISR_release s now hacc, hl]

/-- Witness for C2 at concrete durations 100, 2000 and 9999, and one
concrete accepted release edge at duration 2000. -/
theorem press_classifier_thresholds_check :
    classifyPress 100 = PressClass.short ∧
    classifyPress 2000 = PressClass.medium ∧
    classifyPress 9999 = PressClass.long ∧
    buttonISR sShortW 3000 false =
      { sShortW with lastISRTime := 3000, actionStart := true } := by
  obtain ⟨h1, h2, h3, _, h5⟩ := press_classifier_thresholds
  exact ⟨h1 100 (by decide), h2 2000 (by decide) (by decide),
         h3 9999 (by decide),
         (h5 sShortW 3000 (by decide)).1 (by decide)⟩

/-- Claim C6: a raw edge arriving strictly less than 50 ms after the last
accepted edge leaves the whole state unchanged (no flag, no counter change,
no timestamps touched, no classification); an edge at or beyond the 50 ms
window is accepted and updates the last-accepted time. -/
theorem debounce_window (s : SysState) (now : Nat) (pin : Bool)
    (hle : s.lastISRTime ≤ now) (hnw : now - s.lastISRTime < UL_MOD) :
    (now - s.lastISRTime < DEBOUNCE_TIME → buttonISR s now pin = s) ∧
    (DEBOUNCE_TIME ≤ now - s.lastISRTime →
      (buttonISR s now pin).lastISRTime = now) := by
  have hw := wsub_eq_of_le hle hnw
  constructor
  · intro h
    unfold buttonISR
    rw [if_pos (by rw [hw]; exact h)]
  · intro h
    unfold buttonISR
    rw [if_neg (by rw [hw]; exact Nat.not_lt.mpr h)]
    dsimp only
    split_ifs <;> rfl

/-- Witness for C6: last accepted edge at t = 100; an edge at t = 120 is
discarded outright, an edge at t = 150 is accepted. -/
theorem debounce_window_check :
    buttonISR sDebW 120 true = sDebW ∧
    (buttonISR sDebW 150 true).lastISRTime = 150 := by
  exact ⟨(debounce_window sDebW 120 true (by decide) (by decide)).1 (by decide),
         (debounce_window sDebW 150 true (by decide) (by decide)).2 (by decide)⟩

/-- Claim C3: on an accepted short-press release (duration < 1500 ms), if not
blinking the counter is incremented by one and `actionShort` is raised; if
blinking, the press changes no counter, no flag, no LED or flash state, and
with no flag raised the feedback-flash handler does nothing afterwards. -/
theorem short_press_counting (s : SysState) (now : Nat)
    (hle : s.lastISRTime ≤ now) (hpt : s.pressTime ≤ now) (hnw : now < UL_MOD)
    (hacc : DEBOUNCE_TIME ≤ now - s.lastISRTime)
    (hdur : now - s.pressTime < SHORT_PRESS_TIME) :
    (s.Blink = false →
      buttonISR s now false =
        { s with lastISRTime := now, PressCounter := s.PressCounter + 1,
                 actionShort := true }) ∧
    (s.Blink = true →
      (buttonISR s now false).PressCounter = s.PressCounter ∧
      (buttonISR s now false).actionShort = s.actionShort ∧
      (buttonISR s now false).actionStart = s.actionStart ∧
      (buttonISR s now false).actionStop = s.actionStop ∧
      (buttonISR s now false).feedbackLedOn = s.feedbackLedOn ∧
      (buttonISR s now false).ledPin = s.ledPin ∧
      (s.actionShort = false →
        handleShort (buttonISR s now false) now = buttonISR s now false)) := by
  have hw1 : wsub now s.lastISRTime = now - s.lastISRTime :=
    wsub_eq_of_le hle (by omega)
  have hw2 : wsub now s.pressTime = now - s.pressTime :=
    wsub_eq_of_le hpt (by omega)
  have hrel := buttonISR_release s now (by rw [hw1]; exact Nat.not_lt.mpr hacc)
  have hcl : classifyPress (wsub now s.pressTime) = PressClass.short := by
    rw [hw2]; exact classifyPress_eq_short.mpr hdur
  rw [hrel, hcl]
  constructor
  · intro hb
    rw [if_pos hb]
  · intro hb
    rw [if_neg (by rw [hb]; simp)]
    refine ⟨rfl, rfl, rfl, rfl, rfl, rfl, ?_⟩
    intro hsf
    unfold handleShort
    rw [if_neg (by simpa using hsf)]

/-- Witness for C3: the press that started at t = 1000 and releases at
t = 2000 (duration 1000 ms) increments the counter and raises the flag when
idle, and is fully ignored when blinking. -/
theorem short_press_counting_check :
    (buttonISR sShortW 2000 false).PressCounter = 1 ∧
    (buttonISR sShortW 2000 false).actionShort = true ∧
    (buttonISR sShortBlinkW 2000 false).PressCounter = 2 ∧
    (buttonISR sShortBlinkW 2000 false).actionShort = false := by
  have h1 := (short_press_counting sShortW 2000 (by decide) (by decide)
    (by decide) (by decide) (by decide)).1 (by decide)
  have h2 := (short_press_counting sShortBlinkW 2000 (by decide) (by decide)
    (by decide) (by decide) (by decide)).2 (by decide)
  exact ⟨by rw [h1]; rfl, by rw [h1], h2.1.trans rfl, h2.2.1.trans rfl⟩

/-- Claim C4: consuming a stop event disarms Timer1, forces the LED off,
resets the counter to zero, clears the blink flag and the stop flag, from
every prior state; when the system is already idle the operation changes
nothing but the flag. -/
theorem stop_resets_state (s : SysState) (hstop : s.actionStop = true) :
    (handleStop s).timerArmed = false ∧
    (handleStop s).ledPin = false ∧
    (handleStop s).PressCounter = 0 ∧
    (handleStop s).Blink = false ∧
    (handleStop s).actionStop = false ∧
    (s.ledPin = false ∧ s.PressCounter = 0 ∧ s.Blink = false ∧
       s.timerArmed = false →
      handleStop s = { s with actionStop := false }) := by
  unfold handleStop stopTimer
  rw [if_pos hstop]
  refine ⟨rfl, rfl, rfl, rfl, rfl, ?_⟩
  rintro ⟨h1, h2, h3, h4⟩
  simp [h1, h2, h3, h4]

/-- Witness for C4: stop from an active blinking state and stop from the
idle state. -/
theorem stop_resets_state_check :
    (handleStop sStopW).timerArmed = false ∧
    (handleStop sStopW).ledPin = false ∧
    (handleStop sStopW).PressCounter = 0 ∧
    (handleStop sStopW).Blink = false ∧
    handleStop sStopIdleW = { sStopIdleW with actionStop := false } := by
  have h1 := stop_resets_state sStopW (by decide)
  have h2 := stop_resets_state sStopIdleW (by decide)
  exact ⟨h1.1, h1.2.1, h1.2.2.1, h1.2.2.2.1, h2.2.2.2.2.2 (by decide)⟩

/-- Claim C5: consuming a medium-press event starts blinking (timer armed
with the `PressCounter` count, blink flag set, LED forced off) exactly when
not already blinking and the counter is positive; otherwise only the event
flag is cleared, so a medium press while blinking is a no-op on the blink
and timer state. -/
theorem medium_press_start_guard (s : SysState) (hstart : s.actionStart = true) :
    (s.Blink = false ∧ 0 < s.PressCounter →
      handleStart s =
        { s with actionStart := false, ledPin := false, Blink := true,
                 timerArmed := true, timerCounts := s.PressCounter,
                 timerOCR1A := (7812 * s.PressCounter - 1) % OCR1A_MOD }) ∧
    (¬(s.Blink = false ∧ 0 < s.PressCounter) →
      handleStart s = { s with actionStart := false }) ∧
    (s.Blink = true →
      (handleStart s).Blink = s.Blink ∧
      (handleStart s).timerArmed = s.timerArmed ∧
      (handleStart s).timerCounts = s.timerCounts ∧
      (handleStart s).timerOCR1A = s.timerOCR1A) := by
  unfold handleStart startTimer
  rw [if_pos hstart]
  dsimp only
  refine ⟨?_, ?_, ?_⟩
  · rintro ⟨hb, hp⟩
    rw [if_pos ⟨hb, hp⟩]
    simp [hp.ne']
  · intro h
    rw [if_neg h]
  · intro hb
    rw [if_neg (by simp [hb])]
    exact ⟨rfl, rfl, rfl, rfl⟩

/-- Witness for C5: with counter 2 and idle blink the timer is armed with
counts 2 (OCR1A 15623); with blink already active nothing changes. -/
theorem medium_press_start_guard_check :
    handleStart sStartW =
      { sStartW with actionStart := false, ledPin := false, Blink := true,
                     timerArmed := true, timerCounts := 2,
                     timerOCR1A := 15623 } ∧
    (handleStart sStartBlinkW).Blink = true ∧
    (handleStart sStartBlinkW).timerArmed = true := by
  have h1 := (medium_press_start_guard sStartW (by decide)).1 (by decide)
  have h3 := (medium_press_start_guard sStartBlinkW (by decide)).2.2 (by decide)
  exact ⟨by rw [h1]; rfl, h3.1.trans rfl, h3.2.1.trans rfl⟩

/-- Claim C10: a medium-press event consumed while its guard fails (already
blinking, or counter zero) only clears the event flag; everything else is
untouched, and re-running the handler afterwards does nothing, so the event
is discarded permanently and never starts a blink later. -/
theorem medium_press_guard_fail (s : SysState)
    (hstart : s.actionStart = true)
    (hguard : s.Blink = true ∨ s.PressCounter = 0) :
    handleStart s = { s with actionStart := false } ∧
    (handleStart s).actionStart = false ∧
    handleStart (handleStart s) = handleStart s ∧
    (handleStart s).Blink = s.Blink ∧
    (handleStart s).timerArmed = s.timerArmed ∧
    (handleStart s).PressCounter = s.PressCounter ∧
    (handleStart s).ledPin = s.ledPin := by
  have hng : ¬(s.Blink = false ∧ 0 < s.PressCounter) := by
    rcases hguard with h | h
    · simp [h]
    · simp [h]
  have heq : handleStart s = { s with actionStart := false } := by
    unfold handleStart
    rw [if_pos hstart]
    dsimp only
    rw [if_neg hng]
  have h2 : handleStart { s with actionStart := false } =
      { s with actionStart := false } := by
    unfold handleStart
    rw [if_neg (by simp)]
  refine ⟨heq, by rw [heq], by rw [heq, h2], by rw [heq], by rw [heq],
         by rw [heq], by rw [heq]⟩

/-- Witness for C10: a pending medium press with counter 0 is dropped with
no blink started. -/
theorem medium_press_guard_fail_check :
    handleStart sStartZeroW = { sStartZeroW with actionStart := false } ∧
    (handleStart sStartZeroW).Blink = false := by
  have h := medium_press_guard_fail sStartZeroW (by decide) (Or.inr (by decide))
  exact ⟨h.1, h.2.2.2.1.trans rfl⟩

/-- Claim C1 counterexample: with PressCounter = 5 the consumed medium press
arms Timer1 with counts = 5, a nominal 5000 ms blink period, not the 3000 ms
demanded by the 3-way bucket mapping {1 → 1000, 2 → 2000, ≥3 → 3000}. -/
theorem blink_period_not_bucketed :
    (handleStart sC1).Blink = true ∧
    (handleStart sC1).timerArmed = true ∧
    (handleStart sC1).timerCounts = 5 ∧
    blinkNominalPeriodMs (handleStart sC1).timerCounts = 5000 ∧
    specBucketPeriodMs 5 = 3000 ∧
    blinkNominalPeriodMs (handleStart sC1).timerCounts ≠ specBucketPeriodMs 5 := by
  decide

/-- Claim C1 (amended): the blink period is linear in the counter, not
bucketed: a medium press consumed with PressCounter = n > 0 arms Timer1 with
counts = n, giving a nominal period of 1000·n ms.  This coincides with the
spec bucket mapping for n = 1, 2, 3 and diverges from it for every n ≥ 4.
The OCR1A register value is 7812·n - 1 as long as it fits 16 bits (n ≤ 8). -/
theorem blink_period_linear (s : SysState) (n : Nat)
    (hc : s.PressCounter = n) (hn : 0 < n) (hb : s.Blink = false)
    (hstart : s.actionStart = true) :
    (handleStart s).Blink = true ∧
    (handleStart s).timerArmed = true ∧
    (handleStart s).timerCounts = n ∧
    blinkNominalPeriodMs n = 1000 * n ∧
    blinkNominalPeriodMs 1 = specBucketPeriodMs 1 ∧
    blinkNominalPeriodMs 2 = specBucketPeriodMs 2 ∧
    blinkNominalPeriodMs 3 = specBucketPeriodMs 3 ∧
    (n ≤ 8 → (handleStart s).timerOCR1A = 7812 * n - 1) := by
  unfold handleStart startTimer
  rw [if_pos hstart]
  dsimp only
  rw [if_pos ⟨hb, by omega⟩]
  refine ⟨rfl, rfl, ?_, ?_, by decide, by decide, by decide, ?_⟩
  · simp [hc, hn.ne']
  · unfold blinkNominalPeriodMs togglePeriodMs
    ring
  · intro h8
    simp only [hc, if_neg hn.ne']
    unfold OCR1A_MOD
    exact Nat.mod_eq_of_lt (by omega)

/-- Witness for the amended C1 at n = 5: counts 5, nominal period 5000 ms,
OCR1A = 39059. -/
theorem blink_period_linear_check :
    (handleStart sC1).timerCounts = 5 ∧
    blinkNominalPeriodMs 5 = 5000 ∧
    (handleStart sC1).timerOCR1A = 39059 := by
  have h := blink_period_linear sC1 5 (by decide) (by decide) (by decide)
    (by decide)
  exact ⟨h.2.2.1, h.2.2.2.1.trans rfl,
         (h.2.2.2.2.2.2.2 (by decide)).trans rfl⟩

/-- Claim C7: consuming a short-press event turns the LED on and records the
time; once the flasher is active and 200 ms have elapsed since that recorded
start, the flash handler turns the LED off and clears the active flag; a new
short press while a flash is active restarts the window from the new time,
and in that same iteration the LED stays on. -/
theorem feedback_flash (s : SysState) (now : Nat) :
    (s.actionShort = true →
      handleShort s now =
        { s with actionShort := false, ledPin := true, feedbackLedOn := true,
                 lastFlashStart := now }) ∧
    (s.feedbackLedOn = true → s.lastFlashStart ≤ now →
      now - s.lastFlashStart < UL_MOD → 200 ≤ now - s.lastFlashStart →
      flashEndCheck s now = { s with ledPin := false, feedbackLedOn := false }) ∧
    (s.actionShort = true →
      (handleShort s now).lastFlashStart = now ∧
      (handleShort s now).ledPin = true ∧
      flashEndCheck (handleShort s now) now = handleShort s now) := by
  refine ⟨?_, ?_, ?_⟩
  · intro h
    unfold handleShort
    rw [if_pos h]
  · intro hf hle hnw h200
    unfold flashEndCheck
    rw [if_pos ⟨hf, by rw [wsub_eq_of_le hle hnw]; exact h200⟩]
  · intro h
    unfold handleShort
    rw [if_pos h]
    refine ⟨rfl, rfl, ?_⟩
    unfold flashEndCheck
    rw [if_neg (by simp [wsub_self])]

/-- Witness for C7: a short press at t = 500 lights the LED and records 500;
a flash started at t = 100 ends at t = 350; the fresh flash does not end in
its own iteration. -/
theorem feedback_flash_check :
    handleShort sFlashW 500 =
      { sFlashW with actionShort := false, ledPin := true,
                     feedbackLedOn := true, lastFlashStart := 500 } ∧
    flashEndCheck sFlashOnW 350 =
      { sFlashOnW with ledPin := false, feedbackLedOn := false } ∧
    flashEndCheck (handleShort sFlashW 500) 500 = handleShort sFlashW 500 := by
  have h := feedback_flash sFlashW 500
  have h2 := (feedback_flash sFlashOnW 350).2.1 (by decide) (by decide)
    (by decide) (by decide)
  exact ⟨h.1 (by decide), h2, (h.2.2 (by decide)).2.2⟩

/-- Claim C8: the edge ISR and the main-loop iteration are total functions
of state and input — every combination produces a defined successor state —
and when no event flag is pending and no flash timeout has expired, the
iteration is an explicit no-op on the whole state. -/
theorem transitions_total (s : SysState) (now : Nat) (pin : Bool) :
    (∃ s2, buttonISR s now pin = s2) ∧
    (∃ s2, loopStep s now = s2) ∧
    (s.actionStop = false → s.actionShort = false → s.actionStart = false →
      ¬(s.feedbackLedOn = true ∧ 200 ≤ wsub now s.lastFlashStart) →
      loopStep s now = s) := by
  refine ⟨⟨_, rfl⟩, ⟨_, rfl⟩, ?_⟩
  intro h1 h2 h3 h4
  have e1 : handleStop s = s := by
    unfold handleStop
    rw [if_neg (by simp [h1])]
  have e2 : handleShort s now = s := by
    unfold handleShort
    rw [if_neg (by simp [h2])]
  have e3 : flashEndCheck s now = s := by
    unfold flashEndCheck
    rw [if_neg h4]
  have e4 : handleStart s = s := by
    unfold handleStart
    rw [if_neg (by simp [h3])]
  unfold loopStep
  rw [e1, e2, e3, e4]

/-- Witness for C8: the boot state with no pending events is unchanged by a
loop iteration. -/
theorem transitions_total_check : loopStep initState 0 = initState :=
  (transitions_total initState 0 true).2.2 (by decide) (by decide) (by decide)
    (by decide)

/-- Claim C9: after a loop iteration every event flag is false — a flag acted
upon is never left set — and the ISR producer only ever sets flags, never
clears one that is already set. -/
theorem flags_consumed_once :
    (∀ (s : SysState) (now : Nat),
      (loopStep s now).actionShort = false ∧
      (loopStep s now).actionStart = false ∧
      (loopStep s now).actionStop = false) ∧
    (∀ (s : SysState) (now : Nat) (pin : Bool),
      (s.actionShort = true → (buttonISR s now pin).actionShort = true) ∧
      (s.actionStart = true → (buttonISR s now pin).actionStart = true) ∧
      (s.actionStop = true → (buttonISR s now pin).actionStop = true)) := by
  constructor
  · intro s now
    unfold loopStep handleStart flashEndCheck handleShort handleStop stopTimer
      startTimer
    dsimp only
    split_ifs <;> simp_all
  · intro s now pin
    unfold buttonISR
    dsimp only
    refine ⟨?_, ?_, ?_⟩ <;> intro h <;> split_ifs <;> simp_all

/-- Witness for C9: from a state with all three flags pending, one loop
iteration clears them all, and a press-start edge preserves a pending
short-press flag. -/
theorem flags_consumed_once_check :
    (loopStep sFlagsW 0).actionShort = false ∧
    (loopStep sFlagsW 0).actionStart = false ∧
    (loopStep sFlagsW 0).actionStop = false ∧
    (buttonISR sFlagsW 60 true).actionShort = true := by
  obtain ⟨ha, hb⟩ := flags_consumed_once
  exact ⟨(ha sFlagsW 0).1, (ha sFlagsW 0).2.1, (ha sFlagsW 0).2.2,
         (hb sFlagsW 60 true).1 (by decide)⟩

end RoniMain
